import Mathlib

/-!
Shallow embedding of the I2C/I3C bus-target protocol core of the
`proposed_traits` repository, and proofs of the specification claims
about it.

Embedded source files:
* `src/proposed-traits/src/i3c_master.rs` — advanced-protocol error
  taxonomy (`ErrorKind`, `Error::kind`).
* `src/simulation/src/i3c.rs` — the reference/test controller
  `DummyI3cController` (`assign_dynamic_address`, `handle_hot_join`)
  and its error type `DummyI3cError`.
* `src/proposed-traits/src/i2c_target.rs` — the target capability
  traits, in particular the provided default method
  `WriteReadTarget::on_write_read`.
* `src/simulation/src/i2c_target.rs` — the event type `I2CEvent` and
  the event dispatcher `i2c_event_handler`.

Byte values are modelled as `Nat` (reduced mod 256 where the Rust `u8`
arithmetic can wrap), byte buffers as `List Nat`, and fallible Rust
functions as `Except`-valued Lean functions.
-/

/-- The advanced-protocol error-kind set of
`proposed-traits/src/i3c_master.rs` (`pub enum ErrorKind`). -/
inductive ErrorKind where
  | InvalidCcc
  | DynamicAddressConflict
  | IbiError
  | HotJoinError
  | HdrModeViolation
  | InvalidBroadcastAddress
  | Other
deriving DecidableEq, Repr

/-- The implementation-specific error type `DummyI3cError` of
`simulation/src/i3c.rs` (a unit struct). -/
inductive DummyI3cError where
  | mk
deriving DecidableEq, Repr

/-- `impl proposed_traits::i3c_master::Error for DummyI3cError`:
`fn kind(&self) -> ErrorKind { ErrorKind::Other }`. A Lean function is
total and pure by construction, matching the Rust method, which takes
`&self` and returns a value of the enumeration. -/
def kind : DummyI3cError → ErrorKind :=
  fun _ => ErrorKind.Other

/-- `DummyI3cController::assign_dynamic_address` from
`simulation/src/i3c.rs`: `Ok(static_address + 1)`, where `+` is `u8`
addition (hence the reduction mod 256). The controller struct is
zero-sized and the method touches no state, so it is a function of the
address alone. -/
def assign_dynamic_address (static_address : Nat) : Except DummyI3cError Nat :=
  Except.ok ((static_address + 1) % 256)

/-- `DummyI3cController::handle_hot_join` from `simulation/src/i3c.rs`.
Its body is `Ok(())`: it returns success and calls no other method. The
second component records the static addresses passed to
`assign_dynamic_address` calls made by the body — the body makes none,
so the record is empty. -/
def handle_hot_join : Except DummyI3cError Unit × List Nat :=
  (Except.ok (), [])

/-- The event type `I2CEvent` of `simulation/src/i2c_target.rs`. Write
payloads and read buffers are byte lists. -/
inductive I2CEvent where
  | addressMatch (addr : Nat)
  | transactionStart (repeated : Bool)
  | write (data : List Nat)
  | read (buffer : List Nat)
  | stop
deriving DecidableEq, Repr

/-- A target object, embedding the composed trait
`proposed_traits::i2c_target::I2CTarget` (core + read + write
capabilities, the surface the dispatcher drives). `σ` is the target's
internal state (`&mut self` becomes explicit state passing), `ε` its
associated error type. `onRead` receives the read buffer and returns
the byte count (the claims never inspect the bytes the target deposits,
so buffer mutation by the target is not tracked). -/
structure I2CTarget (σ ε : Type) where
  onAddressMatch : σ → Nat → Bool × σ
  onTransactionStart : σ → Bool → σ
  onWrite : σ → List Nat → Except ε Unit × σ
  onRead : σ → List Nat → Except ε Nat × σ
  onStop : σ → σ

/-- The dispatcher `i2c_event_handler` of `simulation/src/i2c_target.rs`
for a single event. Each arm calls the corresponding driver method
(`I2CTargetDriver` forwards directly to the target):
* `AddressMatch(addr)`: `if driver.handle_address_match(addr) { /* proceed */ }`
  — the target is called, the returned `bool` is tested and then
  discarded (the `if` body is empty);
* `TransactionStart`, `Write`, `Read`, `Stop`: forwarded, with
  `let _ =` discarding the `Result` of the write/read calls.
The Rust function returns `()`; here the resulting target state is
returned. -/
def i2c_event_handler (t : I2CTarget σ ε) (s : σ) : I2CEvent → σ
  | I2CEvent.addressMatch addr => (t.onAddressMatch s addr).2
  | I2CEvent.transactionStart repeated => t.onTransactionStart s repeated
  | I2CEvent.write data => (t.onWrite s data).2
  | I2CEvent.read buffer => (t.onRead s buffer).2
  | I2CEvent.stop => t.onStop s

/-- Feeding an ordered event stream to the dispatcher: each event is
handled by `i2c_event_handler` in turn (the dispatcher itself keeps no
state between events — `I2CTargetDriver` holds only the target). -/
def runEvents (t : I2CTarget σ ε) (s : σ) : List I2CEvent → σ
  | [] => s
  | e :: es => runEvents t (i2c_event_handler t s e) es

/-- The provided default method `WriteReadTarget::on_write_read` of
`proposed-traits/src/i2c_target.rs`:
`self.on_write(write_buffer)?; self.on_read(read_buffer)` — the `?`
returns the write error immediately, otherwise the read runs on the
post-write state and supplies the result. -/
def on_write_read (t : I2CTarget σ ε) (s : σ) (write_buffer read_buffer : List Nat) :
    Except ε Nat × σ :=
  match t.onWrite s write_buffer with
  | (Except.error e, s') => (Except.error e, s')
  | (Except.ok _, s') => t.onRead s' read_buffer

/-- One entry per callback invocation observed on a target; used to
state which calls the dispatcher and the default `on_write_read` make,
and in which order. -/
inductive Call where
  | addressMatch (addr : Nat) (matched : Bool)
  | transactionStart (repeated : Bool)
  | write (data : List Nat)
  | read (buffer : List Nat)
  | stop
deriving DecidableEq, Repr

/-- Instruments a target so that its state also carries the sequence of
callback invocations received so far. The wrapped callbacks behave
exactly like `t`'s and append one `Call` entry each time they are
invoked. -/
def logged (t : I2CTarget σ ε) : I2CTarget (σ × List Call) ε where
  onAddressMatch := fun p addr =>
    ((t.onAddressMatch p.1 addr).1,
      ((t.onAddressMatch p.1 addr).2,
        p.2 ++ [Call.addressMatch addr (t.onAddressMatch p.1 addr).1]))
  onTransactionStart := fun p repeated =>
    (t.onTransactionStart p.1 repeated, p.2 ++ [Call.transactionStart repeated])
  onWrite := fun p data =>
    ((t.onWrite p.1 data).1, ((t.onWrite p.1 data).2, p.2 ++ [Call.write data]))
  onRead := fun p buffer =>
    ((t.onRead p.1 buffer).1, ((t.onRead p.1 buffer).2, p.2 ++ [Call.read buffer]))
  onStop := fun p => (t.onStop p.1, p.2 ++ [Call.stop])

/-- The single `Call` entry that dispatching one event produces on an
instrumented target in state `s`. -/
def eventCall (t : I2CTarget σ ε) (s : σ) : I2CEvent → Call
  | I2CEvent.addressMatch addr => Call.addressMatch addr (t.onAddressMatch s addr).1
  | I2CEvent.transactionStart repeated => Call.transactionStart repeated
  | I2CEvent.write data => Call.write data
  | I2CEvent.read buffer => Call.read buffer
  | I2CEvent.stop => Call.stop

/-- The full call sequence that dispatching an event stream produces on
an instrumented target started in state `s`. -/
def eventCalls (t : I2CTarget σ ε) (s : σ) : List I2CEvent → List Call
  | [] => []
  | e :: es => eventCall t s e :: eventCalls t (i2c_event_handler t s e) es

/-- Number of `Stop` events in an event stream. -/
def stopEvents : List I2CEvent → Nat
  | [] => 0
  | I2CEvent.stop :: es => stopEvents es + 1
  | _ :: es => stopEvents es

/-- Number of `onStop` invocations in a call sequence. -/
def stopCalls : List Call → Nat
  | [] => 0
  | Call.stop :: cs => stopCalls cs + 1
  | _ :: cs => stopCalls cs

/-- A target whose address match always fails; all other callbacks are
trivial. Used to exercise the dispatcher after `AddressMatch(false)`. -/
def alwaysFalseTarget : I2CTarget Unit Unit where
  onAddressMatch := fun s _ => (false, s)
  onTransactionStart := fun s _ => s
  onWrite := fun s _ => (Except.ok (), s)
  onRead := fun s b => (Except.ok b.length, s)
  onStop := fun s => s

/-- A target whose address match always succeeds and whose data
callbacks succeed; state counts the callbacks received. -/
def okTarget : I2CTarget Nat Unit where
  onAddressMatch := fun s _ => (true, s + 1)
  onTransactionStart := fun s _ => s + 1
  onWrite := fun s _ => (Except.ok (), s + 1)
  onRead := fun s b => (Except.ok b.length, s + 1)
  onStop := fun s => s + 1

/-- A target whose write and read callbacks fail; state counts the
callbacks received. -/
def errTarget : I2CTarget Nat Unit where
  onAddressMatch := fun s _ => (true, s + 1)
  onTransactionStart := fun s _ => s + 1
  onWrite := fun s _ => (Except.error (), s + 1)
  onRead := fun s _ => (Except.error (), s + 1)
  onStop := fun s => s + 1

/-- One dispatcher step on an instrumented target: the underlying state
steps as on the plain target and exactly one `Call` entry is appended. -/
theorem i2c_event_handler_logged (t : I2CTarget σ ε) (s : σ) (l : List Call)
    (e : I2CEvent) :
    i2c_event_handler (logged t) (s, l) e =
      (i2c_event_handler t s e, l ++ [eventCall t s e]) := by
  cases e <;> rfl

/-- Bridge lemma: running the dispatcher on an instrumented target
tracks the underlying target's state exactly and appends precisely the
call sequence `eventCalls`. -/
theorem runEvents_logged (t : I2CTarget σ ε) :
    ∀ (es : List I2CEvent) (s : σ) (l : List Call),
      runEvents (logged t) (s, l) es = (runEvents t s es, l ++ eventCalls t s es) := by
  intro es
  induction es with
  | nil => intro s l; simp [runEvents, eventCalls]
  | cons e es ih =>
    intro s l
    simp only [runEvents, eventCalls, i2c_event_handler_logged, ih,
      List.append_assoc, List.singleton_append]

/-- Helper: the dispatcher emits exactly one `onStop` call per `Stop`
event, for every target, state and event stream. -/
theorem eventCalls_stop (t : I2CTarget σ ε) :
    ∀ (es : List I2CEvent) (s : σ), stopCalls (eventCalls t s es) = stopEvents es := by
  intro es
  induction es with
  | nil => intro s; rfl
  | cons e es ih =>
    intro s
    cases e <;> simp [eventCalls, eventCall, stopCalls, stopEvents, ih]

/-- C8: the error-classification operation `kind` is total and pure: it
is a Lean function (defined on every `DummyI3cError`, no side effects),
and it sends every error value to the single kind `ErrorKind.Other`
from the fixed advanced-protocol set. -/
theorem kind_total_pure : ∀ e : DummyI3cError, kind e = ErrorKind.Other :=
  fun _ => rfl

/-- C3: `assign_dynamic_address 0x52` on the reference/test controller
returns `Ok 0x53`, the next address after the static one. -/
theorem assign_dynamic_address_x52 :
    assign_dynamic_address 0x52 = Except.ok 0x53 :=
  rfl

/-- C10: `assign_dynamic_address` performs plain `u8` successor
arithmetic with no 7-bit range check: at the valid 7-bit static address
`0x7F` it returns `Ok 0x80`, which lies outside the 7-bit address
range. -/
theorem assign_dynamic_address_escapes_seven_bit :
    0x7F < 0x80 ∧ assign_dynamic_address 0x7F = Except.ok 0x80 ∧ ¬ (0x80 : Nat) < 0x80 :=
  ⟨by decide, rfl, by decide⟩

/-- C4, counterexample: `handle_hot_join` never calls
`assign_dynamic_address` — its call record is empty, not of length one —
so it does not compose `assign_dynamic_address`, and no pending joiner
can result in an assignment. -/
theorem handle_hot_join_zero_assign_calls :
    handle_hot_join.2.length = 0 ∧ ¬ handle_hot_join.2.length = 1 :=
  ⟨rfl, by decide⟩

/-- C4, amended: `handle_hot_join` on the dummy controller always
returns `Ok` and performs no address assignment (zero
`assign_dynamic_address` calls), whether or not a joiner is pending. -/
theorem handle_hot_join_noop :
    handle_hot_join = (Except.ok (), []) :=
  rfl

/-- C1: after an `AddressMatch` the target answers `false`, the
dispatcher still forwards the following `Write` to the target — the
call sequence produced at the failing input
`[AddressMatch 0x10, Write [1]]` contains `onWrite [1]` right after the
failed match, so the dispatcher does not suppress data events of an
unmatched transaction. -/
theorem write_forwarded_after_failed_match :
    (runEvents (logged alwaysFalseTarget) (((), []))
        [I2CEvent.addressMatch 0x10, I2CEvent.write [1]]).2 =
      [Call.addressMatch 0x10 false, Call.write [1]] :=
  rfl

/-- C2: after an `AddressMatch` the target answers `false`, the
dispatcher still forwards the following `TransactionStart` — the call
sequence produced at the failing input
`[AddressMatch 0x10, TransactionStart false]` contains
`onTransactionStart` although the immediately preceding match returned
`false`. -/
theorem start_forwarded_after_failed_match :
    (runEvents (logged alwaysFalseTarget) (((), []))
        [I2CEvent.addressMatch 0x10, I2CEvent.transactionStart false]).2 =
      [Call.addressMatch 0x10 false, Call.transactionStart false] :=
  rfl

/-- C6: for every target, state and payloads, dispatching
`AddressMatch(a)` answered `true`, then `TransactionStart(r)`,
`Write d1`, `Write d2`, `Stop`, invokes the target's callbacks exactly
in sequence order: the write of `d1` precedes the write of `d2`, and
`onStop` is invoked exactly once. -/
theorem dispatcher_in_order_delivery (t : I2CTarget σ ε) (s : σ) (a : Nat)
    (r : Bool) (d1 d2 : List Nat) (h : (t.onAddressMatch s a).1 = true) :
    (runEvents (logged t) (s, [])
        [I2CEvent.addressMatch a, I2CEvent.transactionStart r,
         I2CEvent.write d1, I2CEvent.write d2, I2CEvent.stop]).2 =
      [Call.addressMatch a true, Call.transactionStart r, Call.write d1,
       Call.write d2, Call.stop] := by
  simp [runEvents_logged, eventCalls, eventCall, h]

/-- Witness for C6 at a concrete target and inputs. -/
theorem dispatcher_in_order_delivery_witness :
    (okTarget.onAddressMatch 0 0x50).1 = true ∧
    (runEvents (logged okTarget) (0, [])
        [I2CEvent.addressMatch 0x50, I2CEvent.transactionStart false,
         I2CEvent.write [1], I2CEvent.write [2], I2CEvent.stop]).2 =
      [Call.addressMatch 0x50 true, Call.transactionStart false, Call.write [1],
       Call.write [2], Call.stop] :=
  ⟨rfl, dispatcher_in_order_delivery okTarget 0 0x50 false [1] [2] rfl⟩

/-- C7: for every target, state and event stream — in particular ones
whose `onWrite`/`onRead` callbacks fail — the dispatcher invokes
`onStop` exactly once per `Stop` event of the stream: no `Stop` is ever
swallowed. -/
theorem dispatcher_forwards_every_stop (t : I2CTarget σ ε) (s : σ)
    (es : List I2CEvent) :
    stopCalls (runEvents (logged t) (s, []) es).2 = stopEvents es := by
  rw [runEvents_logged]
  simp [eventCalls_stop]

/-- C5: the default `on_write_read` makes exactly one `onWrite` call
with the write buffer and then (only if the write succeeded) exactly
one `onRead` call with the read buffer, in that order. If `onWrite`
fails, its error is returned and `onRead` is never invoked (the call
sequence stops at the write); on success the result is whatever byte
count `onRead` produces on the post-write state. -/
theorem on_write_read_two_phase (t : I2CTarget σ ε) (s : σ)
    (w r : List Nat) :
    (∀ e s₁, t.onWrite s w = (Except.error e, s₁) →
      on_write_read (logged t) (s, []) w r =
        (Except.error e, (s₁, [Call.write w]))) ∧
    (∀ u s₁, t.onWrite s w = (Except.ok u, s₁) →
      on_write_read (logged t) (s, []) w r =
        ((t.onRead s₁ r).1, ((t.onRead s₁ r).2, [Call.write w, Call.read r]))) := by
  constructor
  · intro e s₁ h
    simp [on_write_read, logged, h]
  · intro u s₁ h
    simp [on_write_read, logged, h]

/-- Witness for C5: the failing-write and succeeding-write branches at
concrete targets and buffers. -/
theorem on_write_read_two_phase_witness :
    on_write_read (logged errTarget) (0, []) [1] [2, 3] =
      (Except.error (), (1, [Call.write [1]])) ∧
    on_write_read (logged okTarget) (0, []) [1] [2, 3] =
      (Except.ok 2, (2, [Call.write [1], Call.read [2, 3]])) :=
  ⟨(on_write_read_two_phase errTarget 0 [1] [2, 3]).1 () 1 rfl,
   (on_write_read_two_phase okTarget 0 [1] [2, 3]).2 () 1 rfl⟩

/-- C9: the dispatcher discards the `Result` of a data-phase callback:
whatever value `res` the target's `onWrite`/`onRead` returns — success
or error — the dispatcher's caller sees nothing of it and the rest of
the stream is processed from the returned state `s'` exactly as if no
error had occurred. -/
theorem data_result_discarded (t : I2CTarget σ ε) (s : σ) (d b : List Nat)
    (es : List I2CEvent) :
    (∀ res s', t.onWrite s d = (res, s') →
      runEvents t s (I2CEvent.write d :: es) = runEvents t s' es) ∧
    (∀ res s', t.onRead s b = (res, s') →
      runEvents t s (I2CEvent.read b :: es) = runEvents t s' es) := by
  constructor <;> intro res s' h <;> simp [runEvents, i2c_event_handler, h]

/-- Witness for C9: a failed write on a concrete target, after which
the remaining stream is processed from the post-write state. -/
theorem data_result_discarded_witness :
    errTarget.onWrite 0 [7] = (Except.error (), 1) ∧
    runEvents errTarget 0 [I2CEvent.write [7], I2CEvent.stop] =
      runEvents errTarget 1 [I2CEvent.stop] :=
  ⟨rfl,
   (data_result_discarded errTarget 0 [7] [] [I2CEvent.stop]).1
     (Except.error ()) 1 rfl⟩
